import Mathlib

/-!
Shallow embedding of the image-geolocation pipeline found in
`src/Cloud APIs/azure-maps-search-api/get_address.py`.

Modelling conventions:
* numeric EXIF rationals and Python float arithmetic are modelled over `ℚ`;
* the EXIF metadata tree of an image is modelled by the four GPS entries the
  program reads (latitude triplet, latitude reference, longitude triplet,
  longitude reference), each possibly absent;
* the reverse-geocoding response is modelled by the fields the program
  inspects (the features list, the properties map of a feature, its address
  entry, the formattedAddress field);
* the external reverse-geocoding service is a parameter mapping the issued
  request to a response;
* a Python exception raised while handling a response (indexing the first
  element of an empty list) is modelled by the error case of `Except`.
-/

namespace GetAddress

/-- Model of the dataclass `GPSCoordinate` (lines 17 to 39 of
`get_address.py`): degrees, minutes, seconds and a cardinal direction
string. -/
structure GPSCoordinate where
  degrees : ℚ
  minutes : ℚ
  seconds : ℚ
  direction : String
  deriving DecidableEq

/-- Translation of `GPSCoordinate.to_decimal` (lines 47 to 53): the sum
degrees + minutes / 60 + seconds / 3600, multiplied by -1 when the
direction is S or W and by 1 otherwise. -/
def GPSCoordinate.to_decimal (c : GPSCoordinate) : ℚ :=
  (c.degrees + c.minutes / 60 + c.seconds / 3600) *
    (if c.direction = "S" ∨ c.direction = "W" then -1 else 1)

/-- String rendering shared by the dunder repr and str methods of
`GPSCoordinate` (lines 41 to 45). -/
def GPSCoordinate.str (c : GPSCoordinate) : String :=
  toString c.degrees ++ "° " ++ toString c.minutes ++ "\x27 " ++
    toString c.seconds ++ "\x22 " ++ c.direction

/-- Model of the dataclass `GPSLocation` (lines 56 to 70): a latitude and a
longitude coordinate. -/
structure GPSLocation where
  latitude : GPSCoordinate
  longitude : GPSCoordinate
  deriving DecidableEq

/-- Model of the GPS IFD dictionary read by `_get_gps_location`: the four
entries that the function looks up (lines 90 to 93), each possibly
absent. -/
structure GpsIfd where
  gpsLatitude : Option (ℚ × ℚ × ℚ)
  gpsLatitudeRef : Option String
  gpsLongitude : Option (ℚ × ℚ × ℚ)
  gpsLongitudeRef : Option String
  deriving DecidableEq

/-- A present GPS IFD that carries no fields at all: the model of a
present-but-empty positioning block. -/
def emptyGpsIfd : GpsIfd := ⟨none, none, none, none⟩

/-- Model of the EXIF data of an image: the GPS IFD lookup of line 86 may
yield the block or nothing (checked on lines 87 and 88). -/
structure ExifData where
  gps_ifd : Option GpsIfd
  deriving DecidableEq

/-- Model of a decoded image: the EXIF lookup of line 81 may yield EXIF
data or nothing (checked on lines 82 and 83). -/
structure Image where
  exif_data : Option ExifData
  deriving DecidableEq

/-- Translation of `_get_gps_location` (lines 73 to 102): if the EXIF data
or the GPS block is missing, or any of the four GPS entries is missing, the
result is `none`; otherwise the two coordinates are built verbatim from the
triplets and reference strings. -/
def get_gps_location (img : Image) : Option GPSLocation :=
  match img.exif_data with
  | none => none
  | some exif =>
    match exif.gps_ifd with
    | none => none
    | some gps_info =>
      match gps_info.gpsLatitude, gps_info.gpsLatitudeRef,
            gps_info.gpsLongitude, gps_info.gpsLongitudeRef with
      | some lat, some lat_ref, some lon, some lon_ref =>
        let longitude : GPSCoordinate := ⟨lon.1, lon.2.1, lon.2.2, lon_ref⟩
        let latitude : GPSCoordinate := ⟨lat.1, lat.2.1, lat.2.2, lat_ref⟩
        some ⟨latitude, longitude⟩
      | _, _, _, _ => none

/-- Model of the address map inside the properties of a feature: the
program reads only its formattedAddress field (line 129), which may be
missing. -/
structure AddressInfo where
  formattedAddress : Option String
  deriving DecidableEq

/-- Model of the properties map of one response feature: the program reads
only its address entry (lines 124 to 129), which may be missing. -/
structure FeatureProps where
  address : Option AddressInfo
  deriving DecidableEq

/-- Model of one response feature: its properties map may be missing, in
which case line 124 substitutes an empty map. -/
structure Feature where
  properties : Option FeatureProps
  deriving DecidableEq

/-- Model of a reverse-geocoding response: the features key may be absent
(checked on line 120) or hold a list of features. -/
structure GeoResponse where
  features : Option (List Feature)
  deriving DecidableEq

/-- Model of the request issued by `_search_address`: the coordinates
keyword argument of line 117, a list of decimal values. -/
structure GeoRequest where
  coordinates : List ℚ
  deriving DecidableEq

/-- Translation of the response handling of `_search_address` (lines 119
to 129).  When the features key is absent the result is `none`.  Otherwise
line 124 indexes the first element of the features list, which in Python
raises an IndexError when the list is empty; this is the error case.  With
a first feature present, a missing properties map is replaced by an empty
one, a missing address entry yields `none`, and otherwise the
formattedAddress field (possibly missing) is returned. -/
def handle_geocoding_result (result : GeoResponse) : Except String (Option String) :=
  match result.features with
  | none => Except.ok none
  | some feats =>
    match feats with
    | [] => Except.error "IndexError: list index out of range"
    | feature :: _ =>
      let props := feature.properties.getD ⟨none⟩
      match props.address with
      | none => Except.ok none
      | some addr => Except.ok addr.formattedAddress

/-- Translation of `_search_address` (lines 105 to 129), parameterised by
the external reverse-geocoding service.  The request carries the list
holding the longitude decimal first and the latitude decimal second,
exactly as on line 117. -/
def search_address (get_reverse_geocoding : GeoRequest → GeoResponse)
    (location : GPSLocation) : Except String (Option String) :=
  handle_geocoding_result
    (get_reverse_geocoding
      ⟨[location.longitude.to_decimal, location.latitude.to_decimal]⟩)

/-- Observable outcome of one CLI run: the lines printed to the console,
and whether the reverse-geocoding adapter was invoked. -/
structure RunResult where
  output : List String
  adapterCalled : Bool
  deriving DecidableEq

/-- Translation of the body of the `get_address` command (lines 149 to
167), parameterised by the reverse-geocoding service.  When the extractor
yields nothing, the no-GPS-data message is printed and the adapter is not
invoked.  Otherwise the coordinates are printed, the adapter is invoked,
and either the no-address message or the found address is printed.  An
exception raised while handling the response propagates as the error
case. -/
def get_address (svc : GeoRequest → GeoResponse) (img : Image) :
    Except String RunResult :=
  match get_gps_location img with
  | none => Except.ok ⟨["No se encontraron datos GPS en la imagen."], false⟩
  | some location =>
    let header := ["Coordenadas GPS encontradas:",
      "Latitud: " ++ location.latitude.str,
      "Longitud: " ++ location.longitude.str,
      "\nBuscando dirección..."]
    match search_address svc location with
    | Except.error e => Except.error e
    | Except.ok none =>
      Except.ok ⟨header ++
        ["No se pudo encontrar la dirección para estas coordenadas."], true⟩
    | Except.ok (some address) =>
      Except.ok ⟨header ++ ["Dirección encontrada:", address], true⟩

/-- Data-model invariant of a single coordinate, as stated in the spec:
nonnegative degrees, minutes and seconds both nonnegative and below 60. -/
abbrev GPSCoordinate.dmsInvariant (c : GPSCoordinate) : Prop :=
  0 ≤ c.degrees ∧ 0 ≤ c.minutes ∧ c.minutes < 60 ∧ 0 ≤ c.seconds ∧ c.seconds < 60

/-- The all-zero southern coordinate, used to test the sign convention at a
zero magnitude. -/
def zeroSouth : GPSCoordinate := ⟨0, 0, 0, "S"⟩

/-- An image whose GPS block carries a latitude triplet with 75 minutes:
raw metadata that violates the minutes range of the data-model
invariant. -/
def badMinutesImage : Image :=
  ⟨some ⟨some ⟨some (10, 75, 0), some "N", some (20, 5, 6), some "E"⟩⟩⟩

/-- Claim C1 fails as stated at the all-zero coordinate with direction S:
all side conditions hold and the absolute value of the decimal value equals
the magnitude, the direction is S, yet the decimal value is 0 and therefore
not negative. -/
theorem C1_counterexample :
    0 ≤ zeroSouth.minutes ∧ zeroSouth.minutes < 60 ∧
    0 ≤ zeroSouth.seconds ∧ zeroSouth.seconds < 60 ∧
    (zeroSouth.direction = "S" ∨ zeroSouth.direction = "W") ∧
    |zeroSouth.to_decimal| =
      zeroSouth.degrees + zeroSouth.minutes / 60 + zeroSouth.seconds / 3600 ∧
    ¬ zeroSouth.to_decimal < 0 := by
  refine ⟨by norm_num [zeroSouth], by norm_num [zeroSouth],
    by norm_num [zeroSouth], by norm_num [zeroSouth],
    Or.inl rfl, ?_, ?_⟩ <;>
    norm_num [zeroSouth, GPSCoordinate.to_decimal]

/-- Claim C1 (amended): for nonnegative degrees and minutes and seconds in
the range [0, 60), the decimal value has absolute value equal to
degrees + minutes / 60 + seconds / 3600, and it is negative exactly when
the direction is S or W and that magnitude is positive. -/
theorem to_decimal_abs_and_sign (d m s : ℚ) (h : String)
    (hd : 0 ≤ d) (hm0 : 0 ≤ m) (hm : m < 60) (hs0 : 0 ≤ s) (hs : s < 60) :
    |(GPSCoordinate.mk d m s h).to_decimal| = d + m / 60 + s / 3600 ∧
    ((GPSCoordinate.mk d m s h).to_decimal < 0 ↔
      ((h = "S" ∨ h = "W") ∧ 0 < d + m / 60 + s / 3600)) := by
  have hmag : (0:ℚ) ≤ d + m / 60 + s / 3600 :=
    add_nonneg (add_nonneg hd (div_nonneg hm0 (by norm_num)))
      (div_nonneg hs0 (by norm_num))
  have hval : (GPSCoordinate.mk d m s h).to_decimal =
      (d + m / 60 + s / 3600) * (if h = "S" ∨ h = "W" then -1 else 1) := rfl
  by_cases hsw : h = "S" ∨ h = "W"
  · rw [hval, if_pos hsw, mul_neg_one]
    constructor
    · rw [abs_neg, abs_of_nonneg hmag]
    · constructor
      · intro hlt
        exact ⟨hsw, by linarith⟩
      · rintro ⟨-, hpos⟩
        linarith
  · rw [hval, if_neg hsw, mul_one]
    refine ⟨abs_of_nonneg hmag, ?_⟩
    constructor
    · intro hlt
      exact absurd hlt (not_lt.mpr hmag)
    · rintro ⟨hsw2, -⟩
      exact absurd hsw2 hsw

/-- Witness for the amended claim C1 at the coordinate 48 degrees, 51
minutes, 29 seconds, direction N. -/
theorem to_decimal_abs_and_sign_witness :
    |(GPSCoordinate.mk 48 51 29 "N").to_decimal| = 48 + 51 / 60 + 29 / 3600 ∧
    ((GPSCoordinate.mk 48 51 29 "N").to_decimal < 0 ↔
      ((("N":String) = "S" ∨ ("N":String) = "W") ∧
        (0:ℚ) < 48 + 51 / 60 + 29 / 3600)) :=
  to_decimal_abs_and_sign 48 51 29 "N" (by norm_num) (by norm_num)
    (by norm_num) (by norm_num) (by norm_num)

/-- Claim C9: whenever the direction string differs from S and from W, even
an arbitrary string, the decimal value is the non-negated magnitude;
negation happens only for exactly S or exactly W. -/
theorem to_decimal_no_negation (c : GPSCoordinate)
    (hS : c.direction ≠ "S") (hW : c.direction ≠ "W") :
    c.to_decimal = c.degrees + c.minutes / 60 + c.seconds / 3600 := by
  have hor : ¬ (c.direction = "S" ∨ c.direction = "W") := not_or.mpr ⟨hS, hW⟩
  unfold GPSCoordinate.to_decimal
  rw [if_neg hor, mul_one]

/-- Witness for claim C9 at a coordinate with the arbitrary direction
string Q. -/
theorem to_decimal_no_negation_witness :
    (GPSCoordinate.mk 7 8 9 "Q").to_decimal = 7 + 8 / 60 + 9 / 3600 :=
  to_decimal_no_negation (GPSCoordinate.mk 7 8 9 "Q") (by decide) (by decide)

/-- Claim C2 is right about the intent but the code is wrong: on a response
whose features key is present and holds the empty list, the adapter does
not return the absent result; indexing the first feature raises an
IndexError, modelled here as the error case. -/
theorem C2_empty_features_raises :
    search_address (fun _ => ⟨some []⟩)
        ⟨⟨48, 51, 29, "N"⟩, ⟨2, 17, 40, "E"⟩⟩ =
      Except.error "IndexError: list index out of range" := rfl

/-- Claim C3: whenever the GPS block is present but any one of the four GPS
entries is missing, the extractor yields nothing — never a location with a
missing axis. -/
theorem extractor_missing_field_absent (img : Image) (exif : ExifData)
    (gps : GpsIfd) (hx : img.exif_data = some exif)
    (hg : exif.gps_ifd = some gps)
    (hmiss : gps.gpsLatitude = none ∨ gps.gpsLatitudeRef = none ∨
      gps.gpsLongitude = none ∨ gps.gpsLongitudeRef = none) :
    get_gps_location img = none := by
  cases hlat : gps.gpsLatitude <;> cases hlatr : gps.gpsLatitudeRef <;>
    cases hlon : gps.gpsLongitude <;> cases hlonr : gps.gpsLongitudeRef <;>
    simp_all [get_gps_location]

/-- Witness for claim C3 at an image whose GPS block misses only the
latitude reference. -/
theorem extractor_missing_field_absent_witness :
    get_gps_location
      ⟨some ⟨some ⟨some (10, 20, 30), none, some (40, 50, 6), some "E"⟩⟩⟩ =
      none :=
  extractor_missing_field_absent _ _ _ rfl rfl (Or.inr (Or.inl rfl))

/-- Claim C4: the adapter always issues the geocoding request with the
coordinates list holding the longitude decimal first and the latitude
decimal second; the swapped order can coincide with the issued one only
when the two decimals are equal. -/
theorem request_order_lon_lat (svc : GeoRequest → GeoResponse)
    (location : GPSLocation) :
    search_address svc location =
      handle_geocoding_result (svc ⟨[location.longitude.to_decimal,
        location.latitude.to_decimal]⟩) ∧
    ((GeoRequest.mk [location.longitude.to_decimal,
        location.latitude.to_decimal] =
      GeoRequest.mk [location.latitude.to_decimal,
        location.longitude.to_decimal]) →
      location.latitude.to_decimal = location.longitude.to_decimal) := by
  refine ⟨rfl, ?_⟩
  intro hswap
  have hc := congrArg GeoRequest.coordinates hswap
  simp only [List.cons.injEq, and_true] at hc
  exact hc.1.symm

/-- Witness for claim C4 at a concrete location and a constant service. -/
theorem request_order_lon_lat_witness :
    search_address (fun _ => ⟨none⟩) ⟨⟨1, 2, 3, "N"⟩, ⟨4, 5, 6, "W"⟩⟩ =
      handle_geocoding_result ((fun _ : GeoRequest => (⟨none⟩ : GeoResponse))
        ⟨[(GPSCoordinate.mk 4 5 6 "W").to_decimal,
          (GPSCoordinate.mk 1 2 3 "N").to_decimal]⟩) :=
  (request_order_lon_lat (fun _ => ⟨none⟩)
    ⟨⟨1, 2, 3, "N"⟩, ⟨4, 5, 6, "W"⟩⟩).1

/-- Claim C5: on a response with a nonempty feature list, if the properties
of the first feature carry no address entry the result is the absent value;
otherwise the result is the formattedAddress field of that entry, itself
absent when that field is missing. -/
theorem first_feature_address_handling (f : Feature) (rest : List Feature) :
    ((f.properties.getD ⟨none⟩).address = none →
      handle_geocoding_result ⟨some (f :: rest)⟩ = Except.ok none) ∧
    (∀ a : AddressInfo, (f.properties.getD ⟨none⟩).address = some a →
      handle_geocoding_result ⟨some (f :: rest)⟩ =
        Except.ok a.formattedAddress) := by
  constructor
  · intro h
    simp [handle_geocoding_result, h]
  · intro a ha
    simp [handle_geocoding_result, ha]

/-- Witness for claim C5: a first feature carrying a formatted address
yields exactly that address. -/
theorem first_feature_address_handling_witness :
    handle_geocoding_result
        ⟨some [⟨some ⟨some ⟨some "221B Baker Street"⟩⟩⟩]⟩ =
      Except.ok (some "221B Baker Street") :=
  (first_feature_address_handling ⟨some ⟨some ⟨some "221B Baker Street"⟩⟩⟩
    []).2 ⟨some "221B Baker Street"⟩ rfl

/-- Claim C6 fails as stated: the extractor performs no range validation,
so an image whose raw latitude triplet carries 75 minutes yields a
constructed coordinate whose minutes field is 75, violating the minutes
range of the invariant. -/
theorem C6_counterexample :
    get_gps_location badMinutesImage =
      some ⟨⟨10, 75, 0, "N"⟩, ⟨20, 5, 6, "E"⟩⟩ ∧
    ¬ ((GPSCoordinate.mk 10 75 0 "N").minutes < 60) :=
  ⟨rfl, by norm_num⟩

/-- Claim C6 (amended): the extractor copies the raw triplet fields and
reference strings verbatim, so whenever the raw metadata already satisfies
the range conditions, every constructed coordinate satisfies the data-model
invariant, with the sign carried only by the direction field. -/
theorem extractor_invariant_of_valid_raw (e : ExifData) (g : GpsIfd)
    (lat lon : ℚ × ℚ × ℚ) (latRef lonRef : String)
    (hg : e.gps_ifd = some g)
    (hlat : g.gpsLatitude = some lat) (hlatr : g.gpsLatitudeRef = some latRef)
    (hlon : g.gpsLongitude = some lon) (hlonr : g.gpsLongitudeRef = some lonRef)
    (hlatv : 0 ≤ lat.1 ∧ 0 ≤ lat.2.1 ∧ lat.2.1 < 60 ∧
      0 ≤ lat.2.2 ∧ lat.2.2 < 60)
    (hlonv : 0 ≤ lon.1 ∧ 0 ≤ lon.2.1 ∧ lon.2.1 < 60 ∧
      0 ≤ lon.2.2 ∧ lon.2.2 < 60) :
    get_gps_location ⟨some e⟩ =
      some ⟨⟨lat.1, lat.2.1, lat.2.2, latRef⟩,
        ⟨lon.1, lon.2.1, lon.2.2, lonRef⟩⟩ ∧
    GPSCoordinate.dmsInvariant ⟨lat.1, lat.2.1, lat.2.2, latRef⟩ ∧
    GPSCoordinate.dmsInvariant ⟨lon.1, lon.2.1, lon.2.2, lonRef⟩ := by
  refine ⟨?_, hlatv, hlonv⟩
  unfold get_gps_location
  simp [hg, hlat, hlatr, hlon, hlonr]

/-- Witness for the amended claim C6 at in-range raw metadata. -/
theorem extractor_invariant_of_valid_raw_witness :
    get_gps_location
        ⟨some ⟨some ⟨some (40, 41, 21), some "N",
          some (74, 2, 40), some "W"⟩⟩⟩ =
      some ⟨⟨40, 41, 21, "N"⟩, ⟨74, 2, 40, "W"⟩⟩ ∧
    GPSCoordinate.dmsInvariant ⟨40, 41, 21, "N"⟩ ∧
    GPSCoordinate.dmsInvariant ⟨74, 2, 40, "W"⟩ :=
  extractor_invariant_of_valid_raw ⟨some ⟨some (40, 41, 21), some "N",
      some (74, 2, 40), some "W"⟩⟩
    ⟨some (40, 41, 21), some "N", some (74, 2, 40), some "W"⟩
    (40, 41, 21) (74, 2, 40) "N" "W" rfl rfl rfl rfl rfl
    (by norm_num) (by norm_num)

/-- Claim C7: a present-but-empty GPS block makes the extractor yield
nothing, exactly the result for an image whose GPS block is missing
altogether. -/
theorem empty_gps_block_like_missing (e eMissing : ExifData)
    (h1 : e.gps_ifd = some emptyGpsIfd) (h2 : eMissing.gps_ifd = none) :
    get_gps_location ⟨some e⟩ = none ∧
    get_gps_location ⟨some e⟩ = get_gps_location ⟨some eMissing⟩ := by
  constructor <;> simp [get_gps_location, h1, h2, emptyGpsIfd]

/-- Witness for claim C7 at the literal empty block and the literal missing
block. -/
theorem empty_gps_block_like_missing_witness :
    get_gps_location ⟨some ⟨some emptyGpsIfd⟩⟩ = none ∧
    get_gps_location ⟨some ⟨some emptyGpsIfd⟩⟩ =
      get_gps_location ⟨some ⟨none⟩⟩ :=
  empty_gps_block_like_missing ⟨some emptyGpsIfd⟩ ⟨none⟩ rfl rfl

/-- Claim C8: when the extractor finds no GPS data, the pipeline prints
exactly the no-GPS-data message, the adapter is not invoked, and the run
outcome does not depend on the reverse-geocoding service at all. -/
theorem no_gps_no_adapter (svc svc2 : GeoRequest → GeoResponse) (img : Image)
    (h : get_gps_location img = none) :
    get_address svc img =
      Except.ok ⟨["No se encontraron datos GPS en la imagen."], false⟩ ∧
    get_address svc img = get_address svc2 img := by
  constructor <;> simp [get_address, h]

/-- Witness for claim C8 at an image with no EXIF data and two distinct
services. -/
theorem no_gps_no_adapter_witness :
    get_address (fun _ => ⟨none⟩) ⟨none⟩ =
      Except.ok ⟨["No se encontraron datos GPS en la imagen."], false⟩ ∧
    get_address (fun _ => ⟨none⟩) ⟨none⟩ =
      get_address (fun _ => ⟨some []⟩) ⟨none⟩ :=
  no_gps_no_adapter (fun _ => ⟨none⟩) (fun _ => ⟨some []⟩) ⟨none⟩ rfl

/-- Claim C10: when the first feature of a nonempty feature list has no
properties map, the adapter substitutes an empty map, finds no address
entry, and returns the absent result rather than raising. -/
theorem missing_properties_absent (f : Feature) (rest : List Feature)
    (h : f.properties = none) :
    handle_geocoding_result ⟨some (f :: rest)⟩ = Except.ok none := by
  simp [handle_geocoding_result, h]

/-- Witness for claim C10 at a single feature with no properties map. -/
theorem missing_properties_absent_witness :
    handle_geocoding_result ⟨some [⟨none⟩]⟩ = Except.ok none :=
  missing_properties_absent ⟨none⟩ [] rfl

end GetAddress
